import Mathlib

/-!
Verification of the cross-source data-quality validator
(`src/validators/cross-validator.ts`).

The embedding follows the source: metric records are structures with the
fields `validate` reads; JavaScript numbers are modelled by exact rationals
(counters, which the data-model invariant requires to be non-negative
integers, by `Nat`; epoch-millisecond timestamps by `Int`); the mutable
`errors` / `warnings` arrays built by successive `push` calls become list
appends in the same order.  `Date.now()` is impure, so `validate` takes the
two moments it samples (one inside `validateDataFreshness`, one stored in
the `timestamp` field of the result) as explicit arguments.

A second, clearly separated model (`JSNum` and
`calculateActivityCorrelationJS`) captures the JavaScript number semantics
of the correlation arithmetic when a counter field is absent: `undefined`
coerces to `NaN`, `NaN` absorbs through `+`, `/`, `Math.max`, `Math.min`,
and every comparison against `NaN` is false.
-/

/-- Sub-record `commits` of the GitHub snapshot: count plus the author
identifier set. -/
structure CommitMetrics where
  count : ℕ
  authors : List String
deriving DecidableEq, Repr

/-- Sub-record `pullRequests`: merged count plus the author identifier
set. -/
structure PullRequestMetrics where
  merged : ℕ
  authors : List String
deriving DecidableEq, Repr

/-- Sub-record `issues`: closed count plus the participant identifier
set. -/
structure IssueMetrics where
  closed : ℕ
  participants : List String
deriving DecidableEq, Repr

/-- The `metadata` sub-record of a metrics snapshot: collection time in
epoch milliseconds. -/
structure MetricsMetadata where
  collectionTimestamp : ℤ
deriving DecidableEq, Repr

/-- The fields of `GitHubMetrics` (source A, code activity) read by the
validator. -/
structure GitHubMetrics where
  commits : CommitMetrics
  pullRequests : PullRequestMetrics
  issues : IssueMetrics
  metadata : MetricsMetadata
deriving DecidableEq, Repr

/-- Sub-record `transactions` of the NEAR snapshot: count plus unique
sender identifiers. -/
structure TransactionMetrics where
  count : ℕ
  uniqueUsers : List String
deriving DecidableEq, Repr

/-- Sub-record `contract`: call count plus unique caller identifiers. -/
structure ContractMetrics where
  calls : ℕ
  uniqueCallers : List String
deriving DecidableEq, Repr

/-- The fields of `NEARMetrics` (source B, ledger activity) read by the
validator. -/
structure NEARMetrics where
  transactions : TransactionMetrics
  contract : ContractMetrics
  metadata : MetricsMetadata
deriving DecidableEq, Repr

/-- Resolved validation thresholds.  Time quantities are epoch-millisecond
amounts (`Int`, as the constructor accepts arbitrary numbers); the two
ratio thresholds are rationals. -/
structure ValidationThresholds where
  maxTimeDrift : ℤ
  minActivityCorrelation : ℚ
  maxDataAge : ℤ
  maxUserDiffRatio : ℚ
deriving DecidableEq, Repr

/-- Constant `DEFAULT_THRESHOLDS` from the source. -/
def DEFAULT_THRESHOLDS : ValidationThresholds :=
  { maxTimeDrift := 6 * 60 * 60 * 1000
    minActivityCorrelation := 3 / 10
    maxDataAge := 24 * 60 * 60 * 1000
    maxUserDiffRatio := 1 / 2 }

/-- A partial threshold override, as accepted by the constructor. -/
structure PartialThresholds where
  maxTimeDrift : Option ℤ := none
  minActivityCorrelation : Option ℚ := none
  maxDataAge : Option ℤ := none
  maxUserDiffRatio : Option ℚ := none
deriving DecidableEq, Repr

/-- The spread-merge of defaults and overrides performed by the
constructor. -/
def resolveThresholds (p : PartialThresholds) : ValidationThresholds :=
  { maxTimeDrift := p.maxTimeDrift.getD DEFAULT_THRESHOLDS.maxTimeDrift
    minActivityCorrelation :=
      p.minActivityCorrelation.getD DEFAULT_THRESHOLDS.minActivityCorrelation
    maxDataAge := p.maxDataAge.getD DEFAULT_THRESHOLDS.maxDataAge
    maxUserDiffRatio := p.maxUserDiffRatio.getD DEFAULT_THRESHOLDS.maxUserDiffRatio }

/-- The closed error/warning code vocabulary of the validator. -/
inductive ValidationErrorCode where
  | TIMESTAMP_DRIFT
  | STALE_DATA
  | LOW_ACTIVITY_CORRELATION
  | USER_COUNT_DISCREPANCY
deriving DecidableEq, Repr

/-- The `context` mapping attached to each finding, one shape per
emission site in the source. -/
inductive ValidationContext where
  | drift (drift : ℤ)
  | stale (timestamp : ℤ) (maxAge : ℤ)
  | correlation (correlation : ℚ) (threshold : ℚ)
  | userCount (githubUsers nearUsers difference : ℕ) (threshold : ℚ)
deriving DecidableEq, Repr

/-- Shape of `ValidationError` (warnings share it). -/
structure ValidationError where
  code : ValidationErrorCode
  message : String
  context : ValidationContext
deriving DecidableEq, Repr

/-- Warnings have the identical shape, different severity channel. -/
abbrev ValidationWarning := ValidationError

/-- Helper `createValidationError`. -/
def createValidationError (code : ValidationErrorCode) (message : String)
    (context : ValidationContext) : ValidationError :=
  { code := code, message := message, context := context }

/-- The `metadata` block of a `ValidationResult`. -/
structure ResultMetadata where
  source : String
  validationType : String
deriving DecidableEq, Repr

/-- Shape of `ValidationResult`. -/
structure ValidationResult where
  isValid : Bool
  errors : List ValidationError
  warnings : List ValidationWarning
  timestamp : ℤ
  metadata : ResultMetadata
deriving DecidableEq, Repr

/-- Method `calculateTimeDrift`: absolute difference of the two collection
timestamps. -/
def calculateTimeDrift (github : GitHubMetrics) (near : NEARMetrics) : ℤ :=
  |github.metadata.collectionTimestamp - near.metadata.collectionTimestamp|

/-- Method `hasTimestampDrift`: the drift exceeds `maxTimeDrift`. -/
def hasTimestampDrift (t : ValidationThresholds) (github : GitHubMetrics)
    (near : NEARMetrics) : Bool :=
  decide (calculateTimeDrift github near > t.maxTimeDrift)

/-- Method `validateDataFreshness`: up to two `STALE_DATA` errors, the
GitHub one first, each emitted when `now - collectionTimestamp` exceeds
`maxDataAge`. -/
def validateDataFreshness (t : ValidationThresholds) (now : ℤ)
    (github : GitHubMetrics) (near : NEARMetrics) : List ValidationError :=
  (if now - github.metadata.collectionTimestamp > t.maxDataAge then
    [createValidationError .STALE_DATA "GitHub data is too old"
      (.stale github.metadata.collectionTimestamp t.maxDataAge)]
  else []) ++
  (if now - near.metadata.collectionTimestamp > t.maxDataAge then
    [createValidationError .STALE_DATA "NEAR data is too old"
      (.stale near.metadata.collectionTimestamp t.maxDataAge)]
  else [])

/-- Method `calculateActivityCorrelation`: ratio of the smaller to the
larger of the two per-source activity means, `1` when the larger is
zero. -/
def calculateActivityCorrelation (github : GitHubMetrics)
    (near : NEARMetrics) : ℚ :=
  let githubActivity : ℚ :=
    ((github.commits.count : ℚ) + (github.pullRequests.merged : ℚ) +
      (github.issues.closed : ℚ)) / 3
  let nearActivity : ℚ :=
    ((near.transactions.count : ℚ) + (near.contract.calls : ℚ)) / 2
  let maxActivity := max githubActivity nearActivity
  if maxActivity = 0 then 1
  else min githubActivity nearActivity / maxActivity

/-- Method `validateActivityCorrelation`: one `LOW_ACTIVITY_CORRELATION`
warning when the correlation is below `minActivityCorrelation`. -/
def validateActivityCorrelation (t : ValidationThresholds)
    (github : GitHubMetrics) (near : NEARMetrics) : List ValidationWarning :=
  let correlation := calculateActivityCorrelation github near
  if correlation < t.minActivityCorrelation then
    [createValidationError .LOW_ACTIVITY_CORRELATION
      "Low correlation between GitHub and NEAR activity"
      (.correlation correlation t.minActivityCorrelation)]
  else []

/-- The size of the deduplicated union of identifier lists, as built by
`new Set` over the spread lists in the source. -/
def dedupSize (ls : List String) : ℕ := ls.dedup.length

/-- Method `validateUserEngagement`: one `USER_COUNT_DISCREPANCY` warning
when the user-count difference exceeds the allowed fraction of the larger
count. -/
def validateUserEngagement (t : ValidationThresholds)
    (github : GitHubMetrics) (near : NEARMetrics) : List ValidationWarning :=
  let githubUsers : ℕ := dedupSize
    (github.commits.authors ++ github.pullRequests.authors ++
      github.issues.participants)
  let nearUsers : ℕ := dedupSize
    (near.transactions.uniqueUsers ++ near.contract.uniqueCallers)
  let userDiff : ℕ := ((githubUsers : ℤ) - (nearUsers : ℤ)).natAbs
  let maxDiff : ℚ := (max githubUsers nearUsers : ℚ) * t.maxUserDiffRatio
  if (userDiff : ℚ) > maxDiff then
    [{ code := .USER_COUNT_DISCREPANCY
       message := "Large discrepancy between GitHub and NEAR user counts"
       context := .userCount githubUsers nearUsers userDiff maxDiff }]
  else []

/-- Method `validate`.  Here `now` is the `Date.now()` sampled inside
`validateDataFreshness`, and `resultNow` the one stored in the `timestamp`
field of the result.  (The unused private `validateTimestamps` routine is
dead code and is not modelled.) -/
def validate (t : ValidationThresholds) (now resultNow : ℤ)
    (github : GitHubMetrics) (near : NEARMetrics) : ValidationResult :=
  let errors : List ValidationError :=
    (if hasTimestampDrift t github near then
      [createValidationError .TIMESTAMP_DRIFT
        "Significant time drift between metrics"
        (.drift (calculateTimeDrift github near))]
    else []) ++
    validateDataFreshness t now github near
  let warnings : List ValidationWarning :=
    validateActivityCorrelation t github near ++
    validateUserEngagement t github near
  { isValid := errors.length == 0
    errors := errors
    warnings := warnings
    timestamp := resultNow
    metadata := { source := "github", validationType := "data" } }

/-- A JavaScript number that may be the `NaN` produced by arithmetic on an
`undefined` field; every other value is an exact rational. -/
inductive JSNum where
  | nan
  | num (val : ℚ)
deriving DecidableEq, Repr

/-- JavaScript `+` on numbers: `NaN` absorbs. -/
def jsAdd : JSNum → JSNum → JSNum
  | .num a, .num b => .num (a + b)
  | _, _ => .nan

/-- JavaScript `/` on numbers: `NaN` absorbs.  (Division of a non-zero
number by zero would be an infinity, but in the modelled code every
division is guarded by the `maxActivity === 0` check, so that branch is
unreachable.) -/
def jsDiv : JSNum → JSNum → JSNum
  | .num a, .num b => if b = 0 then .nan else .num (a / b)
  | _, _ => .nan

/-- Behaviour of `Math.max`: returns `NaN` if any argument is `NaN`. -/
def jsMax : JSNum → JSNum → JSNum
  | .num a, .num b => .num (max a b)
  | _, _ => .nan

/-- Behaviour of `Math.min`: returns `NaN` if any argument is `NaN`. -/
def jsMin : JSNum → JSNum → JSNum
  | .num a, .num b => .num (min a b)
  | _, _ => .nan

/-- JavaScript strict equality against `0`: false for `NaN`. -/
def jsEqZero : JSNum → Bool
  | .num a => decide (a = 0)
  | .nan => false

/-- JavaScript `<` against a plain number: false when the left side is
`NaN`. -/
def jsLt : JSNum → ℚ → Bool
  | .num a, c => decide (a < c)
  | .nan, _ => false

/-- Reading a possibly-absent counter field: an absent field is
`undefined`, which numeric context coerces to `NaN`. -/
def readCounter : Option ℕ → JSNum
  | some k => .num k
  | none => .nan

/-- The GitHub counters read by `calculateActivityCorrelation`, each
possibly absent. -/
structure GitHubCountersJS where
  commitsCount : Option ℕ
  pullRequestsMerged : Option ℕ
  issuesClosed : Option ℕ
deriving DecidableEq, Repr

/-- The NEAR counters read by `calculateActivityCorrelation`, each
possibly absent. -/
structure NEARCountersJS where
  transactionsCount : Option ℕ
  contractCalls : Option ℕ
deriving DecidableEq, Repr

/-- Method `calculateActivityCorrelation` under JavaScript number
semantics when counter fields may be absent: the same arithmetic as the
source, with `undefined` coercing to `NaN`. -/
def calculateActivityCorrelationJS (g : GitHubCountersJS) (n : NEARCountersJS) : JSNum :=
  let githubActivity := jsDiv
    (jsAdd (jsAdd (readCounter g.commitsCount) (readCounter g.pullRequestsMerged))
      (readCounter g.issuesClosed)) (.num 3)
  let nearActivity := jsDiv
    (jsAdd (readCounter n.transactionsCount) (readCounter n.contractCalls)) (.num 2)
  let maxActivity := jsMax githubActivity nearActivity
  if jsEqZero maxActivity then .num 1
  else jsDiv (jsMin githubActivity nearActivity) maxActivity

/-- Whether `validateActivityCorrelation` pushes its warning, under
JavaScript number semantics. -/
def lowActivityWarningEmittedJS (t : ValidationThresholds) (g : GitHubCountersJS)
    (n : NEARCountersJS) : Bool :=
  jsLt (calculateActivityCorrelationJS g n) t.minActivityCorrelation

/-- Thresholds with `minActivityCorrelation` above `1`. -/
def cvThresholdAboveOne : ValidationThresholds :=
  { maxTimeDrift := 21600000, minActivityCorrelation := 2,
    maxDataAge := 86400000, maxUserDiffRatio := 1 / 2 }

/-- Thresholds with a negative `maxTimeDrift`. -/
def cvNegativeDrift : ValidationThresholds :=
  { maxTimeDrift := -1, minActivityCorrelation := 3 / 10,
    maxDataAge := 86400000, maxUserDiffRatio := 1 / 2 }

/-- A GitHub snapshot with zero counters and empty identifier sets. -/
def cvIdleGitHub : GitHubMetrics := ⟨⟨0, []⟩, ⟨0, []⟩, ⟨0, []⟩, ⟨1000⟩⟩

/-- A NEAR snapshot with zero counters and empty identifier sets. -/
def cvIdleNear : NEARMetrics := ⟨⟨0, []⟩, ⟨0, []⟩, ⟨1000⟩⟩

/-- A GitHub counter record whose `commits.count` field is absent. -/
def cvMissingCommits : GitHubCountersJS := ⟨none, some 300, some 0⟩

/-- A small NEAR counter record with all fields present. -/
def cvSmallNear : NEARCountersJS := ⟨some 1, some 1⟩

/-- The record `cvMissingCommits` with the absent counter replaced by
zero, as the spec says the validator treats it. -/
def cvZeroedCommitsGitHub : GitHubMetrics := ⟨⟨0, []⟩, ⟨300, []⟩, ⟨0, []⟩, ⟨1000⟩⟩

/-- The NEAR record matching `cvSmallNear` in the total model. -/
def cvSmallNearFull : NEARMetrics := ⟨⟨1, []⟩, ⟨1, []⟩, ⟨1000⟩⟩

/-- The GitHub activity mean is non-negative. -/
lemma githubActivity_nonneg (github : GitHubMetrics) :
    (0:ℚ) ≤ ((github.commits.count : ℚ) + (github.pullRequests.merged : ℚ) +
      (github.issues.closed : ℚ)) / 3 := by positivity

/-- The NEAR activity mean is non-negative. -/
lemma nearActivity_nonneg (near : NEARMetrics) :
    (0:ℚ) ≤ ((near.transactions.count : ℚ) + (near.contract.calls : ℚ)) / 2 := by
  positivity

/-- The computed correlation is non-negative. -/
lemma calculateActivityCorrelation_nonneg (github : GitHubMetrics) (near : NEARMetrics) :
    0 ≤ calculateActivityCorrelation github near := by
  simp only [calculateActivityCorrelation]
  split_ifs with h
  · norm_num
  · refine div_nonneg (le_min (githubActivity_nonneg github) (nearActivity_nonneg near)) ?_
    exact le_max_of_le_left (githubActivity_nonneg github)

/-- The computed correlation is at most one. -/
lemma calculateActivityCorrelation_le_one (github : GitHubMetrics) (near : NEARMetrics) :
    calculateActivityCorrelation github near ≤ 1 := by
  simp only [calculateActivityCorrelation]
  split_ifs with h
  · norm_num
  · have hpos : 0 < max (((github.commits.count : ℚ) + (github.pullRequests.merged : ℚ) +
        (github.issues.closed : ℚ)) / 3)
        (((near.transactions.count : ℚ) + (near.contract.calls : ℚ)) / 2) :=
      lt_of_le_of_ne (le_max_of_le_left (githubActivity_nonneg github)) (Ne.symm h)
    exact div_le_one_of_le₀ (min_le_max) hpos.le

/-- C1: for every pair of input records (and any clock values), the
result of `validate` has `isValid = true` exactly when its `errors` list
is empty; warnings play no part in the verdict. -/
theorem c1_isValid_iff_errors_empty (t : ValidationThresholds) (now resultNow : ℤ)
    (github : GitHubMetrics) (near : NEARMetrics) :
    (validate t now resultNow github near).isValid = true ↔
      (validate t now resultNow github near).errors = [] := by
  simp [validate, List.length_eq_zero]

/-- C2 (amended): the `TIMESTAMP_DRIFT` findings of `validate` are
exactly one error, carrying `context.drift` equal to the absolute
timestamp difference, when that difference exceeds `maxTimeDrift`, and
none otherwise; and — provided `maxTimeDrift` is non-negative — records
with equal collection timestamps never produce a `TIMESTAMP_DRIFT`
error. -/
theorem c2_drift (t : ValidationThresholds) (now resultNow : ℤ)
    (github : GitHubMetrics) (near : NEARMetrics) :
    ((validate t now resultNow github near).errors.filter
        (fun e => decide (e.code = ValidationErrorCode.TIMESTAMP_DRIFT)) =
      if |github.metadata.collectionTimestamp - near.metadata.collectionTimestamp| >
          t.maxTimeDrift then
        [{ code := .TIMESTAMP_DRIFT
           message := "Significant time drift between metrics"
           context := .drift
             |github.metadata.collectionTimestamp - near.metadata.collectionTimestamp| }]
      else []) ∧
    (0 ≤ t.maxTimeDrift →
      github.metadata.collectionTimestamp = near.metadata.collectionTimestamp →
      (validate t now resultNow github near).errors.filter
        (fun e => decide (e.code = ValidationErrorCode.TIMESTAMP_DRIFT)) = []) := by
  constructor
  · simp only [validate, validateDataFreshness, hasTimestampDrift, calculateTimeDrift,
      createValidationError, List.filter_append]
    split_ifs <;> simp_all
  · intro hnn heq
    simp only [validate, validateDataFreshness, hasTimestampDrift, calculateTimeDrift,
      createValidationError, List.filter_append]
    split_ifs <;> simp_all <;> omega

/-- C2 witness: at equal timestamps and the default thresholds no
`TIMESTAMP_DRIFT` error is present. -/
theorem c2_drift_witness :
    (validate DEFAULT_THRESHOLDS 1000 1000 cvIdleGitHub cvIdleNear).errors.filter
      (fun e => decide (e.code = ValidationErrorCode.TIMESTAMP_DRIFT)) = [] :=
  (c2_drift DEFAULT_THRESHOLDS 1000 1000 cvIdleGitHub cvIdleNear).2 (by decide) rfl

/-- C2 counterexample: with the (nonsensical but accepted) configuration
`maxTimeDrift = -1`, two records with equal collection timestamps do
produce a `TIMESTAMP_DRIFT` error, refuting the unconditional claim that
equal timestamps never do. -/
theorem c2_counterexample_negative_threshold :
    cvIdleGitHub.metadata.collectionTimestamp =
      cvIdleNear.metadata.collectionTimestamp ∧
    (validate cvNegativeDrift 1000 1000 cvIdleGitHub cvIdleNear).errors.countP
      (fun e => decide (e.code = ValidationErrorCode.TIMESTAMP_DRIFT)) = 1 := by
  constructor
  · rfl
  · norm_num [validate, cvNegativeDrift, cvIdleGitHub, cvIdleNear,
      validateActivityCorrelation, validateUserEngagement, validateDataFreshness,
      hasTimestampDrift, calculateTimeDrift, calculateActivityCorrelation, dedupSize,
      createValidationError, List.countP_append, List.countP_cons]

/-- C3: the correlation equals `min(activityA, activityB) / max(activityA,
activityB)` whenever the larger activity mean is positive, always lies in
`[0, 1]`, and the `LOW_ACTIVITY_CORRELATION` warning is exactly one —
carrying `context = (correlation, threshold)` — precisely when the
correlation is below `minActivityCorrelation`. -/
theorem c3_activity_correlation (t : ValidationThresholds) (now resultNow : ℤ)
    (github : GitHubMetrics) (near : NEARMetrics) :
    (0 < max (((github.commits.count : ℚ) + (github.pullRequests.merged : ℚ) +
        (github.issues.closed : ℚ)) / 3)
        (((near.transactions.count : ℚ) + (near.contract.calls : ℚ)) / 2) →
      calculateActivityCorrelation github near =
        min (((github.commits.count : ℚ) + (github.pullRequests.merged : ℚ) +
            (github.issues.closed : ℚ)) / 3)
          (((near.transactions.count : ℚ) + (near.contract.calls : ℚ)) / 2) /
          max (((github.commits.count : ℚ) + (github.pullRequests.merged : ℚ) +
            (github.issues.closed : ℚ)) / 3)
          (((near.transactions.count : ℚ) + (near.contract.calls : ℚ)) / 2)) ∧
    0 ≤ calculateActivityCorrelation github near ∧
    calculateActivityCorrelation github near ≤ 1 ∧
    ((validate t now resultNow github near).warnings.filter
        (fun w => decide (w.code = ValidationErrorCode.LOW_ACTIVITY_CORRELATION)) =
      if calculateActivityCorrelation github near < t.minActivityCorrelation then
        [{ code := .LOW_ACTIVITY_CORRELATION
           message := "Low correlation between GitHub and NEAR activity"
           context := .correlation (calculateActivityCorrelation github near)
             t.minActivityCorrelation }]
      else []) := by
  refine ⟨?_, calculateActivityCorrelation_nonneg github near,
    calculateActivityCorrelation_le_one github near, ?_⟩
  · intro h
    simp only [calculateActivityCorrelation]
    rw [if_neg (ne_of_gt h)]
  · simp only [validate, validateActivityCorrelation, validateUserEngagement,
      createValidationError, List.filter_append]
    split_ifs <;> simp_all

/-- C3 witness: on a record pair with positive maximal activity the
correlation is the min/max ratio. -/
theorem c3_witness_positive_max :
    calculateActivityCorrelation cvZeroedCommitsGitHub cvSmallNearFull =
      min (((cvZeroedCommitsGitHub.commits.count : ℚ) +
          (cvZeroedCommitsGitHub.pullRequests.merged : ℚ) +
          (cvZeroedCommitsGitHub.issues.closed : ℚ)) / 3)
        (((cvSmallNearFull.transactions.count : ℚ) + (cvSmallNearFull.contract.calls : ℚ)) / 2) /
        max (((cvZeroedCommitsGitHub.commits.count : ℚ) +
          (cvZeroedCommitsGitHub.pullRequests.merged : ℚ) +
          (cvZeroedCommitsGitHub.issues.closed : ℚ)) / 3)
        (((cvSmallNearFull.transactions.count : ℚ) + (cvSmallNearFull.contract.calls : ℚ)) / 2) :=
  (c3_activity_correlation DEFAULT_THRESHOLDS 1000 1000 cvZeroedCommitsGitHub
    cvSmallNearFull).1 (by norm_num [cvZeroedCommitsGitHub, cvSmallNearFull])

/-- C4: a `USER_COUNT_DISCREPANCY` warning is present (then exactly once)
precisely when the absolute difference of the deduplicated user-set sizes
exceeds the larger size times `maxUserDiffRatio`; with all identifier
lists empty no such warning is emitted. -/
theorem c4_user_engagement (t : ValidationThresholds) (now resultNow : ℤ)
    (github : GitHubMetrics) (near : NEARMetrics) :
    ((validate t now resultNow github near).warnings.countP
        (fun w => decide (w.code = ValidationErrorCode.USER_COUNT_DISCREPANCY)) =
      if (((dedupSize (github.commits.authors ++ github.pullRequests.authors ++
            github.issues.participants) : ℤ) -
          (dedupSize (near.transactions.uniqueUsers ++ near.contract.uniqueCallers) : ℤ)).natAbs : ℚ) >
          (max (dedupSize (github.commits.authors ++ github.pullRequests.authors ++
              github.issues.participants))
            (dedupSize (near.transactions.uniqueUsers ++ near.contract.uniqueCallers)) : ℚ) *
            t.maxUserDiffRatio
      then 1 else 0) ∧
    (github.commits.authors = [] → github.pullRequests.authors = [] →
      github.issues.participants = [] → near.transactions.uniqueUsers = [] →
      near.contract.uniqueCallers = [] →
      (validate t now resultNow github near).warnings.countP
        (fun w => decide (w.code = ValidationErrorCode.USER_COUNT_DISCREPANCY)) = 0) := by
  constructor
  · simp only [validate, validateActivityCorrelation, validateUserEngagement,
      createValidationError, List.countP_append]
    split_ifs <;> simp_all [List.countP_cons]
  · intro h1 h2 h3 h4 h5
    simp only [validate, validateActivityCorrelation, validateUserEngagement,
      createValidationError, List.countP_append, h1, h2, h3, h4, h5]
    split_ifs <;> simp_all [List.countP_cons, dedupSize]

/-- C4 witness: with both identifier unions empty no discrepancy warning
is emitted. -/
theorem c4_witness_empty_unions :
    (validate DEFAULT_THRESHOLDS 1000 1000 cvIdleGitHub cvIdleNear).warnings.countP
      (fun w => decide (w.code = ValidationErrorCode.USER_COUNT_DISCREPANCY)) = 0 :=
  (c4_user_engagement DEFAULT_THRESHOLDS 1000 1000 cvIdleGitHub cvIdleNear).2
    rfl rfl rfl rfl rfl

/-- C5: the errors list of `validate` is exactly the optional
`TIMESTAMP_DRIFT` error followed by the optional GitHub `STALE_DATA` error
(present precisely when `now - tsA > maxDataAge`, with
`context = (timestamp, maxAge)`) followed by the optional NEAR
`STALE_DATA` error; in particular, when both records are stale exactly two
`STALE_DATA` errors are present. -/
theorem c5_freshness (t : ValidationThresholds) (now resultNow : ℤ)
    (github : GitHubMetrics) (near : NEARMetrics) :
    ((validate t now resultNow github near).errors =
      (if |github.metadata.collectionTimestamp - near.metadata.collectionTimestamp| >
          t.maxTimeDrift then
        [{ code := .TIMESTAMP_DRIFT
           message := "Significant time drift between metrics"
           context := .drift
             |github.metadata.collectionTimestamp - near.metadata.collectionTimestamp| }]
      else []) ++
      (if now - github.metadata.collectionTimestamp > t.maxDataAge then
        [{ code := .STALE_DATA
           message := "GitHub data is too old"
           context := .stale github.metadata.collectionTimestamp t.maxDataAge }]
      else []) ++
      (if now - near.metadata.collectionTimestamp > t.maxDataAge then
        [{ code := .STALE_DATA
           message := "NEAR data is too old"
           context := .stale near.metadata.collectionTimestamp t.maxDataAge }]
      else [])) ∧
    (now - github.metadata.collectionTimestamp > t.maxDataAge →
      now - near.metadata.collectionTimestamp > t.maxDataAge →
      (validate t now resultNow github near).errors.countP
        (fun e => decide (e.code = ValidationErrorCode.STALE_DATA)) = 2) := by
  constructor
  · simp only [validate, validateDataFreshness, hasTimestampDrift, calculateTimeDrift,
      createValidationError, List.append_assoc]
    split_ifs <;> simp_all
  · intro hg hn
    simp only [validate, validateDataFreshness, hasTimestampDrift, calculateTimeDrift,
      createValidationError, if_pos hg, if_pos hn]
    split_ifs <;> simp [List.countP_cons, List.countP_append]

/-- C5 witness: when both records are a day stale, exactly two
`STALE_DATA` errors are present. -/
theorem c5_witness_both_stale :
    (validate DEFAULT_THRESHOLDS 1000000000 1000000000 cvIdleGitHub cvIdleNear).errors.countP
      (fun e => decide (e.code = ValidationErrorCode.STALE_DATA)) = 2 :=
  (c5_freshness DEFAULT_THRESHOLDS 1000000000 1000000000 cvIdleGitHub cvIdleNear).2
    (by decide) (by decide)

/-- C6 counterexample: with `minActivityCorrelation = 2` (accepted by the
constructor), two fully idle records give correlation `1` yet a
`LOW_ACTIVITY_CORRELATION` warning is emitted, refuting the claim that no
warning appears regardless of the configured threshold. -/
theorem c6_counterexample_threshold_above_one :
    calculateActivityCorrelation cvIdleGitHub cvIdleNear = 1 ∧
    (validate cvThresholdAboveOne 1000 1000 cvIdleGitHub cvIdleNear).warnings.countP
      (fun w => decide (w.code = ValidationErrorCode.LOW_ACTIVITY_CORRELATION)) = 1 := by
  constructor
  · norm_num [calculateActivityCorrelation, cvIdleGitHub, cvIdleNear]
  · norm_num [validate, cvThresholdAboveOne, cvIdleGitHub, cvIdleNear,
      validateActivityCorrelation, validateUserEngagement, validateDataFreshness,
      hasTimestampDrift, calculateTimeDrift, calculateActivityCorrelation, dedupSize,
      createValidationError, List.countP_append, List.countP_cons]

/-- C6 (amended): when both activity aggregates are `0` the correlation
is `1`, and — provided `minActivityCorrelation` does not exceed `1`, as a
ratio threshold — no `LOW_ACTIVITY_CORRELATION` warning is emitted. -/
theorem c6_zero_activity (t : ValidationThresholds) (now resultNow : ℤ)
    (github : GitHubMetrics) (near : NEARMetrics)
    (hA : ((github.commits.count : ℚ) + (github.pullRequests.merged : ℚ) +
      (github.issues.closed : ℚ)) / 3 = 0)
    (hB : ((near.transactions.count : ℚ) + (near.contract.calls : ℚ)) / 2 = 0)
    (ht : t.minActivityCorrelation ≤ 1) :
    calculateActivityCorrelation github near = 1 ∧
    (validate t now resultNow github near).warnings.countP
      (fun w => decide (w.code = ValidationErrorCode.LOW_ACTIVITY_CORRELATION)) = 0 := by
  have hcorr : calculateActivityCorrelation github near = 1 := by
    simp only [calculateActivityCorrelation, hA, hB]
    simp
  refine ⟨hcorr, ?_⟩
  have hlt : ¬(calculateActivityCorrelation github near < t.minActivityCorrelation) := by
    rw [hcorr]
    exact not_lt.mpr ht
  simp only [validate, validateActivityCorrelation, validateUserEngagement,
    createValidationError, List.countP_append, if_neg hlt]
  split_ifs <;> simp [List.countP_cons]

/-- C6 witness: two fully idle records under the default thresholds give
correlation `1` and no warning. -/
theorem c6_witness_idle_default_threshold :
    calculateActivityCorrelation cvIdleGitHub cvIdleNear = 1 ∧
    (validate DEFAULT_THRESHOLDS 1000 1000 cvIdleGitHub cvIdleNear).warnings.countP
      (fun w => decide (w.code = ValidationErrorCode.LOW_ACTIVITY_CORRELATION)) = 0 :=
  c6_zero_activity DEFAULT_THRESHOLDS 1000 1000 cvIdleGitHub cvIdleNear
    (by norm_num [cvIdleGitHub]) (by norm_num [cvIdleNear])
    (by norm_num [DEFAULT_THRESHOLDS])

/-- C7: with `commits.count` absent, the JavaScript semantics of the
correlation arithmetic yields `NaN` — not the zero-defaulted value the
code comment and the spec promise — so the low-correlation warning is
silently skipped, while the zero-defaulted reading of the same input has
correlation `1/100 < 0.3` and does warn.  (No fault is thrown either
way.) -/
theorem c7_missing_counter_divergence :
    calculateActivityCorrelationJS cvMissingCommits cvSmallNear = .nan ∧
    lowActivityWarningEmittedJS DEFAULT_THRESHOLDS cvMissingCommits cvSmallNear = false ∧
    calculateActivityCorrelation cvZeroedCommitsGitHub cvSmallNearFull = 1 / 100 ∧
    (validate DEFAULT_THRESHOLDS 1000 1000 cvZeroedCommitsGitHub cvSmallNearFull).warnings.countP
      (fun w => decide (w.code = ValidationErrorCode.LOW_ACTIVITY_CORRELATION)) = 1 := by
  refine ⟨by decide, by decide, ?_, ?_⟩
  · norm_num [calculateActivityCorrelation, cvZeroedCommitsGitHub, cvSmallNearFull]
  · norm_num [validate, DEFAULT_THRESHOLDS, cvZeroedCommitsGitHub, cvSmallNearFull,
      validateActivityCorrelation, validateUserEngagement, validateDataFreshness,
      hasTimestampDrift, calculateTimeDrift, calculateActivityCorrelation, dedupSize,
      createValidationError, List.countP_append, List.countP_cons]

/-- C8: the errors list, the warnings list and the verdict of `validate`
depend only on the thresholds, the two records and the freshness clock —
not on the moment stamped into the `timestamp` field of the result. -/
theorem c8_result_independent_of_clock (t : ValidationThresholds) (now r1 r2 : ℤ)
    (github : GitHubMetrics) (near : NEARMetrics) :
    (validate t now r1 github near).errors = (validate t now r2 github near).errors ∧
    (validate t now r1 github near).warnings = (validate t now r2 github near).warnings ∧
    (validate t now r1 github near).isValid = (validate t now r2 github near).isValid :=
  ⟨rfl, rfl, rfl⟩

/-- C9: every result of `validate` carries the fixed provenance metadata
`source = "github"`, `validationType = "data"`, independent of the inputs
compared. -/
theorem c9_metadata_fixed (t : ValidationThresholds) (now resultNow : ℤ)
    (github : GitHubMetrics) (near : NEARMetrics) :
    (validate t now resultNow github near).metadata =
      { source := "github", validationType := "data" } := rfl

/-- C10: for every input, `validate` returns at most three errors (at
most one `TIMESTAMP_DRIFT`, at most two `STALE_DATA`) and at most two
warnings (at most one `LOW_ACTIVITY_CORRELATION`, at most one
`USER_COUNT_DISCREPANCY`), and no finding carries a code outside those
four. -/
theorem c10_shape_bounds (t : ValidationThresholds) (now resultNow : ℤ)
    (github : GitHubMetrics) (near : NEARMetrics) :
    (validate t now resultNow github near).errors.length ≤ 3 ∧
    (validate t now resultNow github near).warnings.length ≤ 2 ∧
    (validate t now resultNow github near).errors.countP
      (fun e => decide (e.code = ValidationErrorCode.TIMESTAMP_DRIFT)) ≤ 1 ∧
    (validate t now resultNow github near).errors.countP
      (fun e => decide (e.code = ValidationErrorCode.STALE_DATA)) ≤ 2 ∧
    (validate t now resultNow github near).warnings.countP
      (fun w => decide (w.code = ValidationErrorCode.LOW_ACTIVITY_CORRELATION)) ≤ 1 ∧
    (validate t now resultNow github near).warnings.countP
      (fun w => decide (w.code = ValidationErrorCode.USER_COUNT_DISCREPANCY)) ≤ 1 ∧
    ((validate t now resultNow github near).errors.all
      (fun e => e.code = ValidationErrorCode.TIMESTAMP_DRIFT ∨
        e.code = ValidationErrorCode.STALE_DATA) = true) ∧
    ((validate t now resultNow github near).warnings.all
      (fun w => w.code = ValidationErrorCode.LOW_ACTIVITY_CORRELATION ∨
        w.code = ValidationErrorCode.USER_COUNT_DISCREPANCY) = true) := by
  simp only [validate, validateDataFreshness, validateActivityCorrelation,
    validateUserEngagement, hasTimestampDrift, calculateTimeDrift,
    createValidationError, List.countP_append, List.length_append, List.all_append]
  split_ifs <;> simp_all [List.countP_cons]
